import Mathlib

/-!
# Verification of the TEMPO validation core (NASA_Space_Apps_2025)

Shallow embedding of the spatial-temporal matching and statistical
agreement engine of the repository, together with proofs and refutations
of the specification's claims about it.

Conventions of the embedding:
* Real-valued data that the Python code manipulates with `numpy` floats is
  modelled with `ℚ` (exact arithmetic); values that may be NaN/Inf are
  modelled with `Option ℚ` (`none` = non-finite).
* Timestamps are modelled as rational numbers of hours, so that the
  `.dt.total_seconds() / 3600` conversions in the source become plain
  subtraction and absolute value.
* The transcendental haversine distance itself is embedded over `ℝ`
  (`haversine_distance` below); the matching pipelines are parameterised
  by a distance function `dist`, exactly the role `haversine_distance`
  plays in the Python code.
* Numerical black boxes of the source (`scipy.optimize.minimize`, the
  square root inside RMSE) are parameters of the corresponding embedded
  functions: every theorem about the surrounding logic is proved for an
  arbitrary instantiation of these parameters.
-/

namespace NasaSpaceApps

/-! ## Geodistance primitive (`haversine_distance` in
`src/scientific_validation.py` and
`src/ai_ml/validation/advanced_validation.py`)

`R = 6371`, inputs in degrees converted with `np.radians`,
`a = sin²(Δlat/2) + cos lat1 · cos lat2 · sin²(Δlon/2)`,
`c = 2 · arcsin(√a)`, result `R · c`. -/

noncomputable def haversine_distance (lat1 lon1 lat2 lon2 : ℝ) : ℝ :=
  let p1 := lat1 * (Real.pi / 180)
  let l1 := lon1 * (Real.pi / 180)
  let p2 := lat2 * (Real.pi / 180)
  let l2 := lon2 * (Real.pi / 180)
  let dlat := p2 - p1
  let dlon := l2 - l1
  let a := Real.sin (dlat / 2) ^ 2 +
    Real.cos p1 * Real.cos p2 * Real.sin (dlon / 2) ^ 2
  6371 * (2 * Real.arcsin (Real.sqrt a))

/-- C9: the haversine distance is symmetric in its two coordinate pairs, and
the distance from any coordinate to itself is zero; the value is produced by
the haversine formula with Earth radius 6371 km. -/
theorem haversine_symm_and_self_zero :
    (∀ lat1 lon1 lat2 lon2 : ℝ,
      haversine_distance lat1 lon1 lat2 lon2 =
        haversine_distance lat2 lon2 lat1 lon1) ∧
    (∀ lat lon : ℝ, haversine_distance lat lon lat lon = 0) ∧
    (∀ lat1 lon1 lat2 lon2 : ℝ,
      haversine_distance lat1 lon1 lat2 lon2 =
        6371 * (2 * Real.arcsin (Real.sqrt
          (Real.sin ((lat2 * (Real.pi / 180) - lat1 * (Real.pi / 180)) / 2) ^ 2 +
            Real.cos (lat1 * (Real.pi / 180)) * Real.cos (lat2 * (Real.pi / 180)) *
              Real.sin ((lon2 * (Real.pi / 180) - lon1 * (Real.pi / 180)) / 2) ^ 2)))) := by
  refine ⟨?_, ?_, ?_⟩
  · intro lat1 lon1 lat2 lon2
    unfold haversine_distance
    have hsin : ∀ x y : ℝ, Real.sin ((x - y) / 2) ^ 2 = Real.sin ((y - x) / 2) ^ 2 := by
      intro x y
      have : (x - y) / 2 = -((y - x) / 2) := by ring
      rw [this, Real.sin_neg]
      ring
    simp only
    rw [hsin (lat2 * (Real.pi / 180)) (lat1 * (Real.pi / 180)),
      hsin (lon2 * (Real.pi / 180)) (lon1 * (Real.pi / 180))]
    ring_nf
  · intro lat lon
    unfold haversine_distance
    simp
  · intro lat1 lon1 lat2 lon2
    rfl

/-! ## Shared list utilities

`idxmin` is the pandas `Series.idxmin` selection: the first element attaining
the minimal value of `f`, in iteration order.  `uniqueStrings` is
`Series.unique`: distinct values in order of first appearance. -/

def idxmin {α : Type} (f : α → ℚ) : List α → Option α
  | [] => none
  | a :: as =>
    match idxmin f as with
    | none => some a
    | some b => if f a ≤ f b then some a else some b

def uniqueAux (seen : List String) : List String → List String
  | [] => []
  | a :: as => if a ∈ seen then uniqueAux seen as else a :: uniqueAux (a :: seen) as

def uniqueStrings (l : List String) : List String := uniqueAux [] l

/-! ## Data model of the scientific matcher
(`scientific_spatial_temporal_matching` in `src/scientific_validation.py`)

Timestamps are rational hours, so `(t₂ - t₁).dt.total_seconds() / 3600`
becomes `t₂ - t₁`.  The matcher is parameterised by the distance function
`dist`, which the source instantiates with `haversine_distance`. -/

structure GroundObs where
  latitude : ℚ
  longitude : ℚ
  time_utc : ℚ
  aqi : ℚ
  parameterName : String
  city : String
  deriving DecidableEq, Repr

structure Pixel where
  latitude : ℚ
  longitude : ℚ
  time_utc : ℚ
  no2 : ℚ
  o3 : ℚ
  deriving DecidableEq, Repr

structure SciPair where
  ground_lat : ℚ
  ground_lon : ℚ
  ground_time : ℚ
  ground_value : ℚ
  ground_parameter : String
  tempo_lat : ℚ
  tempo_lon : ℚ
  tempo_time : ℚ
  tempo_no2 : ℚ
  tempo_o3 : ℚ
  distance_km : ℚ
  time_diff_hours : ℚ
  city : String
  region : String
  hour_of_day : ℤ
  deriving DecidableEq, Repr

/-- Static city → TEMPO-region lookup of
`scientific_spatial_temporal_matching`; unmapped cities are skipped. -/
def cityRegion (city : String) : Option String :=
  if city = "New York City" ∨ city = "Philadelphia" ∨ city = "Boston" ∨
      city = "Washington DC" then some "NYC"
  else if city = "Montreal" ∨ city = "Toronto" ∨ city = "Hamilton" then some "Canada"
  else if city = "Mexico City" ∨ city = "Ecatepec" ∨ city = "Toluca" then some "Mexico"
  else none

/-- The combined selection score of the scientific matcher:
`combined_score = matched_distances + matched_time_diffs * 2`. -/
def combinedScore (d t : ℚ) : ℚ := d + t * 2

def mkSciPair (region : String) (g : GroundObs) (best : Pixel) (d : ℚ) : SciPair :=
  { ground_lat := g.latitude
    ground_lon := g.longitude
    ground_time := g.time_utc
    ground_value := g.aqi
    ground_parameter := g.parameterName
    tempo_lat := best.latitude
    tempo_lon := best.longitude
    tempo_time := best.time_utc
    tempo_no2 := best.no2
    tempo_o3 := best.o3
    distance_km := d
    time_diff_hours := |best.time_utc - g.time_utc|
    city := g.city
    region := region
    hour_of_day := ⌊g.time_utc⌋ % 24 }

/-- The spatio-temporally admissible candidates of one ground observation:
pixels within `r` km, then within `w` hours (the two masks of the source,
applied in order). -/
def admissiblePixels (dist : GroundObs → Pixel → ℚ) (r w : ℚ)
    (g : GroundObs) (pixels : List Pixel) : List Pixel :=
  (pixels.filter (fun p => dist g p ≤ r)).filter
    (fun p => |p.time_utc - g.time_utc| ≤ w)

/-- One iteration of the inner loop of `scientific_spatial_temporal_matching`:
spatial mask, temporal mask, combined-score `idxmin` selection, pair record. -/
def sci_match_row (dist : GroundObs → Pixel → ℚ) (r w : ℚ) (region : String)
    (g : GroundObs) (pixels : List Pixel) : Option SciPair :=
  let nearby := pixels.filter (fun p => dist g p ≤ r)
  if nearby.isEmpty then none
  else
    let matched := nearby.filter (fun p => |p.time_utc - g.time_utc| ≤ w)
    if matched.isEmpty then none
    else
      (idxmin (fun p => combinedScore (dist g p) |p.time_utc - g.time_utc|) matched).map
        (fun best => mkSciPair region g best (dist g best))

/-- `ground_data.groupby('city')`: one bucket per distinct city, each holding
that city's rows in original order.  pandas sorts the group keys
lexicographically; the embedding keeps first-appearance key order, which only
permutes whole city blocks of the emitted list and changes neither any
individual pair nor the pair count (the only facts the theorems consult). -/
def groupByCity (ground : List GroundObs) : List (String × List GroundObs) :=
  (uniqueStrings (ground.map GroundObs.city)).map
    (fun c => (c, ground.filter (fun g => g.city = c)))

/-- `scientific_spatial_temporal_matching(ground_data, tempo_data,
spatial_radius_km, temporal_window_hours)` of `src/scientific_validation.py`.
`tempo_data` is the region-keyed dictionary of pixel tables. -/
def sciCityBlock (dist : GroundObs → Pixel → ℚ)
    (tempo_data : List (String × List Pixel)) (r w : ℚ)
    (cg : String × List GroundObs) : List SciPair :=
  match cityRegion cg.1 with
  | none => []
  | some reg =>
    match (tempo_data.find? (fun rp => rp.1 = reg)).map Prod.snd with
    | none => []
    | some pixels => cg.2.filterMap (fun g => sci_match_row dist r w reg g pixels)

def scientific_spatial_temporal_matching (dist : GroundObs → Pixel → ℚ)
    (ground : List GroundObs) (tempo_data : List (String × List Pixel))
    (spatial_radius_km temporal_window_hours : ℚ) : List SciPair :=
  (groupByCity ground).flatMap
    (sciCityBlock dist tempo_data spatial_radius_km temporal_window_hours)

/-! ## Properties of `idxmin` -/

theorem idxmin_eq_some {α : Type} (f : α → ℚ) :
    ∀ (l : List α), l ≠ [] →
      ∃ b, idxmin f l = some b ∧
        ∃ i : Fin l.length, l.get i = b ∧
          (∀ j : Fin l.length, f b ≤ f (l.get j)) ∧
          (∀ j : Fin l.length, (j : ℕ) < (i : ℕ) → f b < f (l.get j)) := by
  intro l
  induction l with
  | nil => intro h; exact absurd rfl h
  | cons a as ih =>
    intro _
    by_cases has : as = []
    · subst has
      refine ⟨a, by simp [idxmin], ⟨0, by simp⟩, rfl, ?_, ?_⟩
      · intro j
        refine Fin.cases ?_ (fun k => Fin.elim0 k) j
        exact le_refl _
      · intro j hj
        exact absurd hj (Nat.not_lt_zero _)
    · obtain ⟨b, hb, i, hget, hmin, hfirst⟩ := ih has
      by_cases hle : f a ≤ f b
      · refine ⟨a, ?_, ⟨0, Nat.succ_pos _⟩, rfl, ?_, ?_⟩
        · rw [idxmin, hb]; simp [hle]
        · intro j
          refine Fin.cases ?_ ?_ j
          · exact le_refl _
          · intro k
            exact le_trans hle (hmin k)
        · intro j hj
          exact absurd hj (Nat.not_lt_zero _)
      · have hba : f b < f a := lt_of_not_le hle
        refine ⟨b, ?_, i.succ, by simpa using hget, ?_, ?_⟩
        · rw [idxmin, hb]; simp [hle]
        · intro j
          refine Fin.cases ?_ ?_ j
          · exact le_of_lt hba
          · intro k
            simpa using hmin k
        · intro j
          refine Fin.cases ?_ ?_ j
          · intro _
            exact hba
          · intro k hk
            have hk' : (k : ℕ) < (i : ℕ) := Nat.lt_of_succ_lt_succ hk
            simpa using hfirst k hk'

theorem idxmin_mem {α : Type} {f : α → ℚ} {l : List α} {b : α}
    (h : idxmin f l = some b) : b ∈ l := by
  cases l with
  | nil => simp [idxmin] at h
  | cons a as =>
    obtain ⟨c, hc, i, hget, -, -⟩ := idxmin_eq_some f (a :: as) (by simp)
    rw [h] at hc
    injection hc with hcb
    subst hcb
    rw [← hget]
    exact List.get_mem _ _ _

/-! ## The scientific matcher: selection rule and monotonicity -/

/-- Selection rule of the scientific matcher's inner loop: with a nonempty
admissible pool, the emitted pair comes from the first candidate attaining
the minimal combined score. -/
theorem sci_match_row_argmin_spec
    (dist : GroundObs → Pixel → ℚ) (r w : ℚ) (region : String)
    (g : GroundObs) (pixels : List Pixel)
    (h : admissiblePixels dist r w g pixels ≠ []) :
    ∃ best,
      sci_match_row dist r w region g pixels =
        some (mkSciPair region g best (dist g best)) ∧
      ∃ i : Fin (admissiblePixels dist r w g pixels).length,
        (admissiblePixels dist r w g pixels).get i = best ∧
        (∀ j : Fin (admissiblePixels dist r w g pixels).length,
          combinedScore (dist g best) |best.time_utc - g.time_utc| ≤
            combinedScore (dist g ((admissiblePixels dist r w g pixels).get j))
              |((admissiblePixels dist r w g pixels).get j).time_utc - g.time_utc|) ∧
        (∀ j : Fin (admissiblePixels dist r w g pixels).length, (j : ℕ) < (i : ℕ) →
          combinedScore (dist g best) |best.time_utc - g.time_utc| <
            combinedScore (dist g ((admissiblePixels dist r w g pixels).get j))
              |((admissiblePixels dist r w g pixels).get j).time_utc - g.time_utc|) := by
  have hnear : ¬ (pixels.filter (fun p => dist g p ≤ r)).isEmpty = true := by
    intro hemp
    rw [List.isEmpty_iff] at hemp
    apply h
    unfold admissiblePixels
    rw [hemp]
    rfl
  obtain ⟨b, hb, i, hget, hmin, hfirst⟩ :=
    idxmin_eq_some (fun p => combinedScore (dist g p) |p.time_utc - g.time_utc|)
      (admissiblePixels dist r w g pixels) h
  refine ⟨b, ?_, i, hget, fun j => hget ▸ hmin j, fun j hj => hget ▸ hfirst j hj⟩
  unfold sci_match_row
  simp only [hnear, if_false]
  have hmatched : ¬ ((pixels.filter (fun p => dist g p ≤ r)).filter
      (fun p => |p.time_utc - g.time_utc| ≤ w)).isEmpty = true := by
    intro hemp
    rw [List.isEmpty_iff] at hemp
    exact h hemp
  simp only [hmatched, if_false]
  have : ((pixels.filter (fun p => dist g p ≤ r)).filter
      (fun p => |p.time_utc - g.time_utc| ≤ w)) = admissiblePixels dist r w g pixels := rfl
  rw [this, hb]
  rfl

/-- C2 (amended): in `scientific_spatial_temporal_matching`, a ground
observation with at least one spatio-temporally admissible candidate is
matched to the candidate minimising `distance_km + time_diff_hours * 2`
(the combined score with the weight hard-coded to 2 in the source), and an
exact tie in the combined score is broken in favour of the first-encountered
candidate in iteration order.  (The claim as frozen also covers the
region-segmented matcher of `advanced_validation.py`, which instead picks the
spatially nearest pixel; see the counterexample.) -/
theorem sci_match_row_first_score_minimiser
    (dist : GroundObs → Pixel → ℚ) (r w : ℚ) (region : String)
    (g : GroundObs) (pixels : List Pixel)
    (h : admissiblePixels dist r w g pixels ≠ []) :
    ∃ best,
      sci_match_row dist r w region g pixels =
        some (mkSciPair region g best (dist g best)) ∧
      ∃ i : Fin (admissiblePixels dist r w g pixels).length,
        (admissiblePixels dist r w g pixels).get i = best ∧
        (∀ j : Fin (admissiblePixels dist r w g pixels).length,
          combinedScore (dist g best) |best.time_utc - g.time_utc| ≤
            combinedScore (dist g ((admissiblePixels dist r w g pixels).get j))
              |((admissiblePixels dist r w g pixels).get j).time_utc - g.time_utc|) ∧
        (∀ j : Fin (admissiblePixels dist r w g pixels).length, (j : ℕ) < (i : ℕ) →
          combinedScore (dist g best) |best.time_utc - g.time_utc| <
            combinedScore (dist g ((admissiblePixels dist r w g pixels).get j))
              |((admissiblePixels dist r w g pixels).get j).time_utc - g.time_utc|) :=
  sci_match_row_argmin_spec dist r w region g pixels h

theorem sci_match_row_isSome_iff (dist : GroundObs → Pixel → ℚ) (r w : ℚ)
    (region : String) (g : GroundObs) (pixels : List Pixel) :
    (sci_match_row dist r w region g pixels).isSome = true ↔
      ∃ p ∈ pixels, dist g p ≤ r ∧ |p.time_utc - g.time_utc| ≤ w := by
  constructor
  · intro hsome
    by_contra hno
    push_neg at hno
    have hadm : admissiblePixels dist r w g pixels = [] := by
      unfold admissiblePixels
      rw [List.filter_filter]
      rw [List.filter_eq_nil_iff]
      intro p hp
      simp only [Bool.and_eq_true, decide_eq_true_eq, not_and]
      intro ht hd
      exact absurd ht (not_le.mpr (hno p hp hd))
    unfold sci_match_row at hsome
    by_cases hnear : (pixels.filter (fun p => dist g p ≤ r)).isEmpty = true
    · rw [if_pos hnear] at hsome
      simp at hsome
    · rw [if_neg hnear] at hsome
      have : ((pixels.filter (fun p => dist g p ≤ r)).filter
          (fun p => |p.time_utc - g.time_utc| ≤ w)).isEmpty = true := by
        rw [List.isEmpty_iff]
        exact hadm
      rw [if_pos this] at hsome
      simp at hsome
  · intro ⟨p, hp, hd, ht⟩
    have hadm : admissiblePixels dist r w g pixels ≠ [] := by
      unfold admissiblePixels
      intro hemp
      rw [List.filter_eq_nil_iff] at hemp
      refine hemp p ?_ (by simpa using ht)
      rw [List.mem_filter]
      exact ⟨hp, by simpa using hd⟩
    obtain ⟨b, hb, -⟩ := sci_match_row_argmin_spec dist r w region g pixels hadm
    rw [hb]
    rfl

theorem length_filterMap_eq_countP {α β : Type} (f : α → Option β) (l : List α) :
    (l.filterMap f).length = l.countP (fun a => (f a).isSome) := by
  induction l with
  | nil => rfl
  | cons a as ih =>
    cases h : f a <;>
      simp [List.filterMap_cons, h, List.countP_cons, ih]

/-- C5: holding the data fixed, enlarging the spatial radius and/or the
temporal window never decreases the number of matched pairs emitted by
`scientific_spatial_temporal_matching`. -/
theorem sci_matching_monotone (dist : GroundObs → Pixel → ℚ)
    (ground : List GroundObs) (tempo_data : List (String × List Pixel))
    {r r' w w' : ℚ} (hr : r ≤ r') (hw : w ≤ w') :
    (scientific_spatial_temporal_matching dist ground tempo_data r w).length ≤
      (scientific_spatial_temporal_matching dist ground tempo_data r' w').length := by
  unfold scientific_spatial_temporal_matching
  generalize groupByCity ground = groups
  induction groups with
  | nil => simp
  | cons cg rest ih =>
    rw [List.flatMap_cons, List.flatMap_cons, List.length_append, List.length_append]
    refine Nat.add_le_add ?_ ih
    unfold sciCityBlock
    split
    · exact Nat.le_refl _
    · split
      · exact Nat.le_refl _
      · rw [length_filterMap_eq_countP, length_filterMap_eq_countP]
        refine List.countP_mono_left ?_
        intro g _ hg
        simp only [decide_eq_true_eq] at hg ⊢
        rw [sci_match_row_isSome_iff] at hg ⊢
        obtain ⟨p, hp, hd, ht⟩ := hg
        exact ⟨p, hp, le_trans hd hr, le_trans ht hw⟩

/-! Concrete instances used by the witnesses: a coarse flat-earth distance
function (a legitimate instantiation of the `dist` parameter), one ground
observation in Toronto and two admissible pixels. -/

def distLat : GroundObs → Pixel → ℚ := fun g p => |p.latitude - g.latitude| * 100

def gW : GroundObs := ⟨0, 0, 0, 50, "O3", "Toronto"⟩

def pW1 : Pixel := ⟨1/2, 0, 1, 5, 40⟩

def pW2 : Pixel := ⟨1/4, 0, 2, 6, 41⟩

/-- Witness for `sci_match_row_first_score_minimiser` at a concrete input:
two admissible pixels with scores 52 and 29, the second one selected. -/
theorem sci_match_row_first_score_minimiser_witness :
    admissiblePixels distLat 60 3 gW [pW1, pW2] ≠ [] ∧
      (sci_match_row distLat 60 3 "Canada" gW [pW1, pW2]).isSome = true := by
  have hadm : admissiblePixels distLat 60 3 gW [pW1, pW2] ≠ [] := by
    norm_num [admissiblePixels, distLat, gW, pW1, pW2, abs_div]
    exact List.cons_ne_nil _ _
  refine ⟨hadm, ?_⟩
  obtain ⟨b, hb, -⟩ :=
    sci_match_row_first_score_minimiser distLat 60 3 "Canada" gW [pW1, pW2] hadm
  rw [hb]
  rfl

/-- Witness for `sci_matching_monotone` at a concrete input. -/
theorem sci_matching_monotone_witness :
    (1 : ℚ) ≤ 100 ∧ (1 : ℚ) ≤ 3 ∧
      (scientific_spatial_temporal_matching distLat [gW] [("Canada", [pW1, pW2])] 1 1).length ≤
        (scientific_spatial_temporal_matching distLat [gW] [("Canada", [pW1, pW2])] 100 3).length := by
  exact ⟨by norm_num, by norm_num,
    sci_matching_monotone distLat [gW] [("Canada", [pW1, pW2])]
      (by norm_num) (by norm_num)⟩

/-! ## Data model of the region-segmented matcher
(`match_region_temporally_and_spatially` in
`src/ai_ml/validation/advanced_validation.py`)

Pollutant columns of a TEMPO row are a map `Chan → Option ℚ`; `none` covers
both a missing column and a NaN cell — the source treats the two identically
(`pollutant_col in closest_tempo` and `pd.notna`, both leading to no
emission).  `datetime` is the `'datetime'` column used for time differences,
`time` the separate `'time'` column copied into the emitted pair. -/

inductive Chan
  | ozone_total_column
  | no2_tropospheric_column
  | pm25
  | hcho_tropospheric_column
  deriving DecidableEq, Repr

/-- The static parameter → satellite-column mapping of the source. -/
def pollutantCol (parameter : String) : Option Chan :=
  if parameter = "OZONE" then some Chan.ozone_total_column
  else if parameter = "NO2" then some Chan.no2_tropospheric_column
  else if parameter = "PM2.5" then some Chan.pm25
  else if parameter = "HCHO" then some Chan.hcho_tropospheric_column
  else none

structure TempoRow where
  latitude : ℚ
  longitude : ℚ
  datetime : ℚ
  time : ℚ
  quality_flag : ℚ
  cloud_fraction : ℚ
  solar_zenith_angle : ℚ
  vals : Chan → Option ℚ

structure GroundRow where
  latitude : ℚ
  longitude : ℚ
  utc : ℚ
  parameter : String
  value : Option ℚ
  aqi : Option ℚ
  region : Option String
  city : String

structure MatchedPair where
  city : String
  region : String
  ground_lat : ℚ
  ground_lon : ℚ
  ground_time : ℚ
  ground_value : ℚ
  ground_aqi : ℚ
  ground_parameter : String
  tempo_lat : ℚ
  tempo_lon : ℚ
  tempo_time : ℚ
  tempo_value : ℚ
  tempo_parameter : Chan
  distance_km : ℚ
  time_diff_hours : ℚ
  deriving DecidableEq, Repr

/-- The three optional admissibility filters applied to the TEMPO table once
per region (`quality_flag ≤ 2`, `cloud_fraction < 0.8`,
`solar_zenith_angle < 85`); each is applied only when the corresponding
column is present in the dataframe (the `Bool` flags). -/
def qualityFilter (hasQ hasC hasS : Bool) (tempo : List TempoRow) : List TempoRow :=
  let t1 := if hasQ then tempo.filter (fun p => p.quality_flag ≤ 2) else tempo
  let t2 := if hasC then t1.filter (fun p => p.cloud_fraction < 4/5) else t1
  if hasS then t2.filter (fun p => p.solar_zenith_angle < 85) else t2

def mkAdvPair (g : GroundRow) (closest : TempoRow) (col : Chan) (v : ℚ)
    (d : ℚ) : MatchedPair :=
  { city := g.city
    region := g.region.getD "Unknown"
    ground_lat := g.latitude
    ground_lon := g.longitude
    ground_time := g.utc
    ground_value := g.value.getD (g.aqi.getD 0)
    ground_aqi := g.aqi.getD 0
    ground_parameter := g.parameter
    tempo_lat := closest.latitude
    tempo_lon := closest.longitude
    tempo_time := closest.time
    tempo_value := v
    tempo_parameter := col
    distance_km := d
    time_diff_hours := |closest.datetime - g.utc| }

/-- One iteration of the inner loop of
`match_region_temporally_and_spatially`: spatial 150 km mask, 72 h mask used
only as an emptiness gate, then `closest_idx = distances[distances <=
150].idxmin()` — the spatially nearest pixel regardless of its time
difference — and the NaN / `-999` guard on the selected pixel's pollutant
value. -/
def adv_match_row (dist : GroundRow → TempoRow → ℚ) (tempo : List TempoRow)
    (g : GroundRow) : Option MatchedPair :=
  let nearby := tempo.filter (fun p => dist g p ≤ 150)
  if nearby.isEmpty then none
  else
    let valid := nearby.filter (fun p => |p.datetime - g.utc| ≤ 72)
    if valid.isEmpty then none
    else
      match idxmin (fun p => dist g p) nearby with
      | none => none
      | some closest =>
        match pollutantCol g.parameter with
        | none => none
        | some col =>
          match closest.vals col with
          | none => none
          | some v =>
            if v = -999 then none
            else some (mkAdvPair g closest col v (dist g closest))

/-- `match_region_temporally_and_spatially(ground_region, tempo_region)` of
`src/ai_ml/validation/advanced_validation.py`: quality filters once for the
region, then per city (skipping `'Unknown'`, in first-appearance order) the
row loop above. -/
def match_region_temporally_and_spatially (dist : GroundRow → TempoRow → ℚ)
    (hasQ hasC hasS : Bool) (ground_region : List GroundRow)
    (tempo_region : List TempoRow) : List MatchedPair :=
  let tempo := qualityFilter hasQ hasC hasS tempo_region
  let cities := (uniqueStrings (ground_region.map GroundRow.city)).filter
    (fun c => c ≠ "Unknown")
  cities.flatMap (fun city =>
    (ground_region.filter (fun g => g.city = city)).filterMap
      (adv_match_row dist tempo))

theorem adv_match_row_eq_some {dist : GroundRow → TempoRow → ℚ}
    {tempo : List TempoRow} {g : GroundRow} {p : MatchedPair}
    (h : adv_match_row dist tempo g = some p) :
    ∃ closest ∈ tempo, ∃ col,
      pollutantCol g.parameter = some col ∧
      closest.vals col = some p.tempo_value ∧
      p.tempo_value ≠ -999 ∧ p.tempo_parameter = col := by
  unfold adv_match_row at h
  by_cases h1 : (tempo.filter (fun p => dist g p ≤ 150)).isEmpty = true
  · rw [if_pos h1] at h
    simp at h
  · rw [if_neg h1] at h
    by_cases h2 : ((tempo.filter (fun p => dist g p ≤ 150)).filter
        (fun p => |p.datetime - g.utc| ≤ 72)).isEmpty = true
    · rw [if_pos h2] at h
      simp at h
    · rw [if_neg h2] at h
      cases hm : idxmin (fun p => dist g p) (tempo.filter (fun p => dist g p ≤ 150)) with
      | none => rw [hm] at h; simp at h
      | some closest =>
        rw [hm] at h
        replace h :
            (match pollutantCol g.parameter with
              | none => none
              | some col =>
                match closest.vals col with
                | none => none
                | some v =>
                  if v = -999 then none
                  else some (mkAdvPair g closest col v (dist g closest))) = some p := h
        cases hc : pollutantCol g.parameter with
        | none => rw [hc] at h; simp at h
        | some col =>
          rw [hc] at h
          replace h :
              (match closest.vals col with
                | none => none
                | some v =>
                  if v = -999 then none
                  else some (mkAdvPair g closest col v (dist g closest))) = some p := h
          cases hv : closest.vals col with
          | none => rw [hv] at h; simp at h
          | some v =>
            rw [hv] at h
            replace h :
                (if v = -999 then none
                 else some (mkAdvPair g closest col v (dist g closest))) = some p := h
            by_cases hs : v = -999
            · rw [if_pos hs] at h
              simp at h
            · rw [if_neg hs] at h
              injection h with hp
              subst hp
              exact ⟨closest, List.mem_of_mem_filter (idxmin_mem hm), col, rfl, hv, hs, rfl⟩

/-- C10: every pair emitted by the region-segmented matcher carries a
pollutant value that was present (non-NaN) in the selected satellite row and
differs from the `-999` missing-data sentinel; ground observations whose
selected pixel carries no such value are dropped rather than emitted. -/
theorem adv_matcher_output_finite_nonsentinel
    (dist : GroundRow → TempoRow → ℚ) (hasQ hasC hasS : Bool)
    (ground_region : List GroundRow) (tempo_region : List TempoRow) :
    ∀ p ∈ match_region_temporally_and_spatially dist hasQ hasC hasS
        ground_region tempo_region,
      p.tempo_value ≠ -999 ∧
        ∃ px ∈ qualityFilter hasQ hasC hasS tempo_region,
          px.vals p.tempo_parameter = some p.tempo_value := by
  intro p hp
  unfold match_region_temporally_and_spatially at hp
  rw [List.mem_flatMap] at hp
  obtain ⟨city, -, hp⟩ := hp
  rw [List.mem_filterMap] at hp
  obtain ⟨g, -, hg⟩ := hp
  obtain ⟨closest, hmem, col, -, hval, hneq, hpar⟩ := adv_match_row_eq_some hg
  refine ⟨hneq, closest, hmem, ?_⟩
  rw [hpar]
  exact hval

/-! Concrete instances for the region-segmented matcher: a coarse flat-earth
instantiation of the `dist` parameter and small ground/TEMPO tables. -/

def distC1 : GroundRow → TempoRow → ℚ := fun g p => (p.latitude - g.latitude) * 100

def gB : GroundRow := ⟨0, 0, 0, "NO2", some 30, some 40, some "NA", "Toronto"⟩

/-- 100 km away, 1 h away: inside both tolerances. -/
def pA : TempoRow :=
  ⟨1, 0, 1, 1, 0, 0, 0,
    fun c => if c = Chan.no2_tropospheric_column then some 5 else none⟩

/-- 50 km away but 100 h away: outside the 72 h window. -/
def pB : TempoRow :=
  ⟨1/2, 0, 100, 100, 0, 0, 0,
    fun c => if c = Chan.no2_tropospheric_column then some 6 else none⟩

/-- C1: the region-segmented matcher emits a pair whose recorded
`time_diff_hours` exceeds its own 72-hour temporal window.  With one ground
observation and two pixels — one 100 km / 1 h away, one 50 km / 100 h away —
the 72 h filter passes (the first pixel is inside it) but the selection then
takes the spatially nearest pixel over the spatial-only pool, emitting the
50 km / 100 h pixel.  The matched pair records `time_diff_hours = 100 > 72`,
violating the matcher tolerance invariant. -/
theorem adv_matcher_emits_pair_outside_temporal_window :
    ((match_region_temporally_and_spatially distC1 false false false [gB] [pA, pB]).map
      (fun p => (p.distance_km, p.time_diff_hours))) = [(50, 100)] ∧
      ¬ ((100 : ℚ) ≤ 72) := by
  have hTU : ("Toronto" : String) ≠ "Unknown" := by decide
  have hNO : ("NO2" : String) ≠ "OZONE" := by decide
  constructor
  · norm_num [match_region_temporally_and_spatially, qualityFilter, uniqueStrings,
      uniqueAux, adv_match_row, idxmin, pollutantCol, mkAdvPair, distC1, gB, pA, pB,
      hTU, hNO, List.filter_cons, List.filter_nil, List.filterMap_cons,
      List.filterMap_nil, List.flatMap_cons, List.flatMap_nil]
  · norm_num

def gC : GroundRow := ⟨0, 0, 0, "OZONE", some 20, some 25, some "NA", "Montreal"⟩

/-- 30 km away, 1 h away: the only spatio-temporally admissible candidate,
with combined score 30 + 1 × 2 = 32. -/
def pC1 : TempoRow :=
  ⟨3/10, 0, 1, 1, 0, 0, 0,
    fun c => if c = Chan.ozone_total_column then some 3 else none⟩

/-- 20 km away but 90 h away: inadmissible in time, yet spatially nearest. -/
def pC2 : TempoRow :=
  ⟨1/5, 0, 90, 90, 0, 0, 0,
    fun c => if c = Chan.ozone_total_column then some 4 else none⟩

/-- C2 counterexample: the region-segmented matcher does not emit the
combined-score minimiser among the spatio-temporally admissible candidates.
Here the only admissible candidate sits at 30 km / 1 h, but the emitted pair
is the spatially nearest (and temporally inadmissible) pixel at
20 km / 90 h. -/
theorem adv_matcher_ignores_combined_score :
    ((match_region_temporally_and_spatially distC1 false false false [gC] [pC1, pC2]).map
      (fun p => (p.distance_km, p.time_diff_hours))) = [(20, 90)] ∧
      (([pC1, pC2].filter (fun p => distC1 gC p ≤ 150)).filter
        (fun p => |p.datetime - gC.utc| ≤ 72)) = [pC1] ∧
      distC1 gC pC1 = 30 ∧
      ((20 : ℚ), (90 : ℚ)) ≠ ((30 : ℚ), (1 : ℚ)) := by
  have hMU : ("Montreal" : String) ≠ "Unknown" := by decide
  refine ⟨?_, ?_, ?_, ?_⟩
  · norm_num [match_region_temporally_and_spatially, qualityFilter, uniqueStrings,
      uniqueAux, adv_match_row, idxmin, pollutantCol, mkAdvPair, distC1, gC, pC1, pC2,
      hMU, List.filter_cons, List.filter_nil, List.filterMap_cons, List.filterMap_nil,
      List.flatMap_cons, List.flatMap_nil]
  · norm_num [distC1, gC, pC1, pC2, List.filter_cons, List.filter_nil]
  · norm_num [distC1, gC, pC1]
  · norm_num

/-- Ground row and pixel for the C10 witness: a clean in-tolerance match with
a present, non-sentinel pollutant value. -/
def gT : GroundRow := ⟨0, 0, 0, "NO2", some 42, some 50, some "NA", "Toronto"⟩

def pT : TempoRow :=
  ⟨1/10, 0, 0, 0, 0, 0, 0,
    fun c => if c = Chan.no2_tropospheric_column then some 7 else none⟩

def pairT : MatchedPair := mkAdvPair gT pT Chan.no2_tropospheric_column 7 (distC1 gT pT)

/-- Witness for `adv_matcher_output_finite_nonsentinel` at a concrete input. -/
theorem adv_matcher_output_finite_nonsentinel_witness :
    pairT ∈ match_region_temporally_and_spatially distC1 false false false [gT] [pT] ∧
      pairT.tempo_value ≠ -999 := by
  have hmem : pairT ∈ match_region_temporally_and_spatially distC1 false false false [gT] [pT] := by
    have : match_region_temporally_and_spatially distC1 false false false [gT] [pT] = [pairT] := by
      have hTU : ("Toronto" : String) ≠ "Unknown" := by decide
      have hNO : ("NO2" : String) ≠ "OZONE" := by decide
      norm_num [match_region_temporally_and_spatially, qualityFilter, uniqueStrings,
        uniqueAux, adv_match_row, idxmin, pollutantCol, pairT, distC1, gT, pT,
        hTU, hNO, List.filter_cons, List.filter_nil, List.filterMap_cons,
        List.filterMap_nil, List.flatMap_cons, List.flatMap_nil]
    rw [this]
    exact List.mem_singleton_self _
  exact ⟨hmem,
    (adv_matcher_output_finite_nonsentinel distC1 false false false [gT] [pT] pairT hmem).1⟩

/-! ## Numeric primitives of the statistics suite

Float vectors are `List (Option ℚ)` where `none` stands for a non-finite
entry (NaN or ±Inf) — the source only ever tests `isnan`/`isinf` jointly.
A median over data containing a non-finite entry is modelled as non-finite;
this matches NaN propagation exactly, and for ±Inf it can differ from
numpy's ordering of infinities only in the λ estimate on non-finite input,
which no theorem below consults. -/

def insertSorted (a : ℚ) : List ℚ → List ℚ
  | [] => [a]
  | b :: bs => if a ≤ b then a :: b :: bs else b :: insertSorted a bs

def sortQ : List ℚ → List ℚ
  | [] => []
  | a :: as => insertSorted a (sortQ as)

def meanQ (x : List ℚ) : ℚ := x.sum / x.length

/-- `np.median`: middle element of the sorted data, or the mean of the two
middle elements for even length (callers never pass the empty list). -/
def np_median (x : List ℚ) : ℚ :=
  let s := sortQ x
  let n := x.length
  if n % 2 = 1 then s.getD (n / 2) 0
  else (s.getD (n / 2 - 1) 0 + s.getD (n / 2) 0) / 2

/-- `np.var` (population variance, `ddof = 0`). -/
def np_var (x : List ℚ) : ℚ :=
  let m := meanQ x
  (x.map (fun v => (v - m) ^ 2)).sum / x.length

/-- `robust_var` of `advanced_validation.py` on finite data:
`med = median(x)`, `mad = median(|x - med|) + 1e-9`, `(1.4826 * mad)²`. -/
def robust_varQ (x : List ℚ) : ℚ :=
  let med := np_median x
  let mad := np_median (x.map (fun v => |v - med|)) + 1 / 1000000000
  (14826 / 10000 * mad) ^ 2

def finiteVals (x : List (Option ℚ)) : List ℚ := x.filterMap id

def allFinite (x : List (Option ℚ)) : Bool := x.all (fun v => v.isSome)

/-- `robust_var` on possibly non-finite data: non-finite once any entry is
(see the module comment above on ±Inf). -/
def robust_var (x : List (Option ℚ)) : Option ℚ :=
  if x.isEmpty || !allFinite x then none else some (robust_varQ (finiteVals x))

/-- `np.var(x) < t` as the source's branch condition evaluates it: `False`
whenever a non-finite entry makes the variance NaN/Inf. -/
def np_var_lt (x : List (Option ℚ)) (t : ℚ) : Bool :=
  allFinite x && decide (np_var (finiteVals x) < t)

/-- `sklearn.metrics.r2_score`: `1 - ss_res / ss_tot`, with the degenerate
`ss_tot = 0` case defined as 1 for a perfect fit and 0 otherwise.  (sklearn
additionally warns and yields NaN for fewer than two samples; every call
site proved about below has at least two.) -/
def r2_score (y_true y_pred : List ℚ) : ℚ :=
  let ss_res := ((y_true.zip y_pred).map (fun ab => (ab.1 - ab.2) ^ 2)).sum
  let ss_tot := (y_true.map (fun v => (v - meanQ y_true) ^ 2)).sum
  if ss_tot = 0 then (if ss_res = 0 then 1 else 0) else 1 - ss_res / ss_tot

def mean_squared_error (y_true y_pred : List ℚ) : ℚ :=
  meanQ ((y_true.zip y_pred).map (fun ab => (ab.1 - ab.2) ^ 2))

def mean_absolute_error (y_true y_pred : List ℚ) : ℚ :=
  meanQ ((y_true.zip y_pred).map (fun ab => |ab.1 - ab.2|))

/-- `np.polyfit(x, y, 1)`.  For non-constant `x` this is the ordinary
least-squares line.  For constant `x = c` the scaled Vandermonde matrix is
rank-deficient and `lstsq` returns the minimum-norm solution in the
column-normalised coordinates, which works out to
`(mean(y) / (2c), mean(y) / 2)`; for `c = 0` the column normalisation
divides by zero and `polyfit` raises (`none` here, like the empty input). -/
def np_polyfit (x y : List ℚ) : Option (ℚ × ℚ) :=
  if x.isEmpty then none
  else
    let n : ℚ := x.length
    let mx := x.sum / n
    let my := y.sum / n
    let sxx := (x.map (fun v => (v - mx) ^ 2)).sum
    if sxx = 0 then
      let c := x.headD 0
      if c = 0 then none else some (my / (2 * c), my / 2)
    else
      let sxy := ((x.zip y).map (fun ab => (ab.1 - mx) * (ab.2 - my))).sum
      some (sxy / sxx, my - sxy / sxx * mx)

/-- `np.clip(v, lo, hi)`. -/
def npClip (v lo hi : ℚ) : ℚ := min (max v lo) hi

/-! ## `deming_regression` of `src/ai_ml/validation/advanced_validation.py`

The `scipy.optimize.minimize` call of the non-degenerate branch is the
parameter `opt` (objective and initial guess to approximate minimiser);
every theorem below holds for an arbitrary `opt`.  The `x_err`/`y_err`
parameters of the source are initialised to ones and never used afterwards,
so they are omitted.  The `print` warning on clamping is modelled as the
`warn_clamp` flag of the result. -/

structure DemingResult where
  slope : ℚ
  intercept : ℚ
  r2 : ℚ
  lambda_used : Option ℚ
  warn_clamp : Bool
  deriving DecidableEq, Repr

/-- The degeneracy guard of `deming_regression`:
`np.var(x) < 1e-6 or np.var(y) < 1e-6 or isnan/isinf anywhere`. -/
def degenerateInput (x y : List (Option ℚ)) : Bool :=
  np_var_lt x (1 / 1000000) || np_var_lt y (1 / 1000000) ||
    !allFinite x || !allFinite y

/-- The jointly-finite pairs `x[mask], y[mask]` of the fallback branch. -/
def cleanPairs (x y : List (Option ℚ)) : List (ℚ × ℚ) :=
  (x.zip y).filterMap (fun ab =>
    match ab.1, ab.2 with
    | some a, some b => some (a, b)
    | _, _ => none)

def deming_regression (opt : ((ℚ × ℚ) → ℚ) → (ℚ × ℚ) → ℚ × ℚ)
    (x y : List (Option ℚ)) (lambda_ratio : Option ℚ) : DemingResult :=
  let lamRaw : Option ℚ :=
    match lambda_ratio with
    | some l => some l
    | none =>
      match robust_var x, robust_var y with
      | some vg, some vt => some (vg / max vt (1 / 1000000000))
      | _, _ => none
  let lamC : Option ℚ := lamRaw.map (fun l => npClip l (1 / 20) 20)
  let warn : Bool :=
    match lamRaw with
    | none => true
    | some l => decide (¬ npClip l (1 / 20) 20 = l)
  let core : ℚ × ℚ × ℚ :=
    if degenerateInput x y then
      let clean := cleanPairs x y
      if 1 < clean.length then
        match np_polyfit (clean.map Prod.fst) (clean.map Prod.snd) with
        | some si =>
          (si.1, si.2, r2_score (clean.map Prod.snd)
            (clean.map (fun ab => si.1 * ab.1 + si.2)))
        | none => (1, 0, 0)
      else (1, 0, 0)
    else
      let xs := finiteVals x
      let ys := finiteVals y
      let init := (np_polyfit xs ys).getD (1, 0)
      let lam := lamC.getD 0
      let fitted := opt (fun sp =>
        ((xs.zip ys).map
          (fun ab => (ab.2 - (sp.1 * ab.1 + sp.2)) ^ 2 / (lam + sp.1 ^ 2))).sum) init
      let ss_res := ((xs.zip ys).map
        (fun ab => (ab.2 - (fitted.1 * ab.1 + fitted.2)) ^ 2)).sum
      let my := meanQ ys
      let ss_tot := (ys.map (fun v => (v - my) ^ 2)).sum
      (fitted.1, fitted.2, 1 - ss_res / ss_tot)
  { slope := core.1, intercept := core.2.1, r2 := core.2.2,
    lambda_used := lamC, warn_clamp := warn }

/-- A trivial instantiation of the optimiser parameter (returns the initial
guess), used only to evaluate branches that never consult the optimiser. -/
def idOpt : ((ℚ × ℚ) → ℚ) → (ℚ × ℚ) → ℚ × ℚ := fun _ p => p

/-! ## Deming regression: degeneracy guard (C3) and λ estimation (C4) -/

/-- C3 counterexample: two constant (zero-variance) length-2 arrays do not
produce the neutral `(slope, intercept, r²) = (1, 0, 0)`.  The clean subset
still has 2 points, so the fallback runs `np.polyfit` on constant `x = 5`,
whose minimum-norm solution is `(3/10, 3/2)` with a perfect fit
(`r² = 1`). -/
theorem deming_constant_arrays_not_neutral :
    ((deming_regression idOpt [some 5, some 5] [some 3, some 3] none).slope = 3 / 10 ∧
      (deming_regression idOpt [some 5, some 5] [some 3, some 3] none).intercept = 3 / 2 ∧
      (deming_regression idOpt [some 5, some 5] [some 3, some 3] none).r2 = 1) ∧
    ¬ ((3 / 10 : ℚ) = 1 ∧ (3 / 2 : ℚ) = 0 ∧ (1 : ℚ) = 0) := by
  constructor
  · refine ⟨?_, ?_, ?_⟩ <;>
      norm_num [deming_regression, degenerateInput, np_var_lt, allFinite, finiteVals,
        np_var, meanQ, cleanPairs, np_polyfit, r2_score, idOpt,
        List.filterMap_cons, List.filterMap_nil]
  · intro h
    exact absurd h.1 (by norm_num)

/-- C3 (amended): whenever the degeneracy guard fires (variance of either
input below 1e-6, or any non-finite entry), `deming_regression` never
consults the numeric optimiser (so it cannot fail there), falls back to
`np.polyfit` least squares on the jointly-finite subset when that subset has
at least 2 points, and returns the neutral `(1, 0, 0)` when fewer than 2
clean points remain (or when `polyfit` itself raises).  Two constant arrays
therefore never raise and always yield a defined result — but the neutral
`(1, 0, 0)` only when fewer than 2 clean points remain, not in general (see
the counterexample). -/
theorem deming_degenerate_fallback
    (opt opt₂ : ((ℚ × ℚ) → ℚ) → (ℚ × ℚ) → ℚ × ℚ)
    (x y : List (Option ℚ)) (lr : Option ℚ)
    (hdeg : degenerateInput x y = true) :
    deming_regression opt x y lr = deming_regression opt₂ x y lr ∧
    ((cleanPairs x y).length ≤ 1 →
      (deming_regression opt x y lr).slope = 1 ∧
      (deming_regression opt x y lr).intercept = 0 ∧
      (deming_regression opt x y lr).r2 = 0) ∧
    (1 < (cleanPairs x y).length →
      match np_polyfit ((cleanPairs x y).map Prod.fst)
          ((cleanPairs x y).map Prod.snd) with
      | some si =>
        (deming_regression opt x y lr).slope = si.1 ∧
        (deming_regression opt x y lr).intercept = si.2 ∧
        (deming_regression opt x y lr).r2 =
          r2_score ((cleanPairs x y).map Prod.snd)
            ((cleanPairs x y).map (fun ab => si.1 * ab.1 + si.2))
      | none =>
        (deming_regression opt x y lr).slope = 1 ∧
        (deming_regression opt x y lr).intercept = 0 ∧
        (deming_regression opt x y lr).r2 = 0) := by
  refine ⟨?_, ?_, ?_⟩
  · simp only [deming_regression, hdeg, if_true]
  · intro hlen
    simp only [deming_regression, hdeg, if_true,
      if_neg (not_lt.mpr hlen)]
    exact ⟨trivial, trivial, trivial⟩
  · intro hlen
    simp only [deming_regression, hdeg, if_true, if_pos hlen]
    cases hpf : np_polyfit ((cleanPairs x y).map Prod.fst)
        ((cleanPairs x y).map Prod.snd) with
    | none => simp only [hpf]; exact ⟨trivial, trivial, trivial⟩
    | some si => simp only [hpf]; exact ⟨trivial, trivial, trivial⟩

/-- Witness for `deming_degenerate_fallback`: one non-finite entry leaves a
single clean point, so the neutral result is returned. -/
theorem deming_degenerate_fallback_witness :
    degenerateInput [some 5, none] [some 3, some 7] = true ∧
    (deming_regression idOpt [some 5, none] [some 3, some 7] none).slope = 1 ∧
    (deming_regression idOpt [some 5, none] [some 3, some 7] none).intercept = 0 ∧
    (deming_regression idOpt [some 5, none] [some 3, some 7] none).r2 = 0 := by
  have hdeg : degenerateInput [some 5, none] [some 3, some 7] = true := by
    simp [degenerateInput, allFinite]
  have hlen : (cleanPairs [some 5, none] [some 3, some 7]).length ≤ 1 := by
    simp [cleanPairs]
  have h := (deming_degenerate_fallback idOpt idOpt
    [some 5, none] [some 3, some 7] none hdeg).2.1 hlen
  exact ⟨hdeg, h.1, h.2.1, h.2.2⟩

theorem robust_var_map_some (x : List ℚ) (hx : x ≠ []) :
    robust_var (x.map some) = some (robust_varQ x) := by
  unfold robust_var
  rw [if_neg (by simp [allFinite, hx])]
  have : finiteVals (x.map some) = x := by simp [finiteVals]
  rw [this]

/-- C4 (amended): with `variance_ratio` not supplied and finite nonempty
inputs, the λ estimate is `robust_var(x) / max(robust_var(y), 1e-9)` — the
source guards the denominator with a `1e-9` floor, which the claim's plain
`robust_var(x) / robust_var(y)` omits (see the counterexample) — the λ
actually returned (and used by the objective) is that estimate clamped into
`[0.05, 20]`, and the clamp warning fires exactly when clamping changed the
value. -/
theorem deming_lambda_estimate (opt : ((ℚ × ℚ) → ℚ) → (ℚ × ℚ) → ℚ × ℚ)
    (x y : List ℚ) (hx : x ≠ []) (hy : y ≠ []) :
    (deming_regression opt (x.map some) (y.map some) none).lambda_used =
      some (npClip (robust_varQ x / max (robust_varQ y) (1 / 1000000000))
        (1 / 20) 20) ∧
    (1 / 20 : ℚ) ≤
      npClip (robust_varQ x / max (robust_varQ y) (1 / 1000000000)) (1 / 20) 20 ∧
    npClip (robust_varQ x / max (robust_varQ y) (1 / 1000000000)) (1 / 20) 20 ≤ 20 ∧
    ((deming_regression opt (x.map some) (y.map some) none).warn_clamp = true ↔
      npClip (robust_varQ x / max (robust_varQ y) (1 / 1000000000)) (1 / 20) 20 ≠
        robust_varQ x / max (robust_varQ y) (1 / 1000000000)) := by
  have hrx := robust_var_map_some x hx
  have hry := robust_var_map_some y hy
  refine ⟨?_, ?_, ?_, ?_⟩
  · simp only [deming_regression, hrx, hry, Option.map_some']
  · exact le_min (le_max_right _ _) (by norm_num)
  · exact min_le_right _ _
  · simp only [deming_regression, hrx, hry, decide_eq_true_eq]

/-- Witness for `deming_lambda_estimate` at a concrete input. -/
theorem deming_lambda_estimate_witness :
    ([(1 : ℚ), 2, 4] ≠ []) ∧
    (deming_regression idOpt ([(1 : ℚ), 2, 4].map some)
        ([(1 : ℚ), 2, 4].map some) none).lambda_used =
      some (npClip (robust_varQ [(1 : ℚ), 2, 4] /
        max (robust_varQ [(1 : ℚ), 2, 4]) (1 / 1000000000)) (1 / 20) 20) := by
  exact ⟨by simp,
    (deming_lambda_estimate idOpt [1, 2, 4] [1, 2, 4] (by simp) (by simp)).1⟩

def vC4 : List ℚ := [0, 1 / 1000000, 2 / 1000000]

/-- C4 counterexample: with `x = y = [0, 1e-6, 2e-6]`,
`robust_var(y) ≈ 2.2e-12` falls below the `1e-9` denominator floor, so the
code's λ estimate is `robust_var(x)/1e-9 ≈ 2.2e-3`, clamped to `0.05` —
whereas the claim's formula `robust_var(x)/robust_var(y)` gives exactly `1`,
which clamping leaves unchanged. -/
theorem deming_lambda_denominator_guard_cex :
    (deming_regression idOpt (vC4.map some) (vC4.map some) none).lambda_used =
      some (1 / 20) ∧
    npClip (robust_varQ vC4 / robust_varQ vC4) (1 / 20) 20 = 1 ∧
    ((1 / 20 : ℚ)) ≠ 1 := by
  have hrv : robust_varQ vC4 = 14840826 ^ 2 / 10 ^ 26 := by
    norm_num [robust_varQ, np_median, sortQ, insertSorted, meanQ, vC4,
      List.getD, abs_div, abs_neg]
  have hne : robust_varQ vC4 ≠ 0 := by rw [hrv]; norm_num
  have hrx := robust_var_map_some vC4 (by simp [vC4])
  refine ⟨?_, ?_, by norm_num⟩
  · simp only [deming_regression, hrx, Option.map_some']
    rw [hrv]
    norm_num [npClip]
  · rw [div_self hne]
    norm_num [npClip]

/-! ## Quantile mapping (`quantile_mapping` in
`src/ai_ml/validation/advanced_validation.py`)

`np.quantile` with the default linear interpolation; the mapping quantiles
are `[0.1, 0.5, 0.9]`.  The metadata dictionary returned alongside the
mapped array only repeats these quantile values, so the embedding returns
the mapped list. -/

/-- `np.quantile(x, p)` (linear interpolation method): with `s` the sorted
data and `h = p(n-1)`, interpolate between `s[⌊h⌋]` and `s[⌊h⌋+1]`. -/
def np_quantile (x : List ℚ) (p : ℚ) : ℚ :=
  let s := sortQ x
  let h := p * ((x.length : ℚ) - 1)
  let i := (⌊h⌋).toNat
  s.getD i 0 + (h - (i : ℚ)) * (s.getD (i + 1) 0 - s.getD i 0)

/-- `np.interp(x, [a0,a1,a2], [b0,b1,b2])`: piecewise-linear interpolation
with clamping at the extreme anchors. -/
def np_interp3 (x a0 a1 a2 b0 b1 b2 : ℚ) : ℚ :=
  if x ≤ a0 then b0
  else if x ≤ a1 then b0 + (x - a0) * (b1 - b0) / (a1 - a0)
  else if x ≤ a2 then b1 + (x - a1) * (b2 - b1) / (a2 - a1)
  else b2

/-- `map_value` of `quantile_mapping`: ratio scaling below the satellite
10th percentile, `np.interp` between the percentile anchors up to the 90th,
and p50–p90-slope extrapolation above it. -/
def quantile_map_value (ground tempo : List ℚ) (x : ℚ) : ℚ :=
  let gq0 := np_quantile ground (1 / 10)
  let gq1 := np_quantile ground (1 / 2)
  let gq2 := np_quantile ground (9 / 10)
  let tq0 := np_quantile tempo (1 / 10)
  let tq1 := np_quantile tempo (1 / 2)
  let tq2 := np_quantile tempo (9 / 10)
  if x ≤ tq0 then gq0 * (x / tq0)
  else if x ≤ tq2 then np_interp3 x tq0 tq1 tq2 gq0 gq1 gq2
  else gq2 + (gq2 - gq1) / (tq2 - tq1) * (x - tq2)

def quantile_mapping (ground tempo : List ℚ) : List ℚ :=
  tempo.map (quantile_map_value ground tempo)

/-- C6: fitting the quantile mapping on `(g, g)` and applying it maps every
value to itself, provided the three percentiles are distinct (`np.quantile`
is monotone in `p`, so distinctness is the strict ordering assumed here) and
the 10th percentile is nonzero — the identity holds in each of the three
branches. -/
theorem quantile_mapping_self_identity (g : List ℚ)
    (h01 : np_quantile g (1 / 10) < np_quantile g (1 / 2))
    (h12 : np_quantile g (1 / 2) < np_quantile g (9 / 10))
    (h0 : np_quantile g (1 / 10) ≠ 0) :
    quantile_mapping g g = g := by
  have hx : ∀ x : ℚ, quantile_map_value g g x = x := by
    intro x
    unfold quantile_map_value np_interp3
    set q0 := np_quantile g (1 / 10) with hq0
    set q1 := np_quantile g (1 / 2) with hq1
    set q2 := np_quantile g (9 / 10) with hq2
    dsimp only
    split_ifs with h1 h2 h3
    · field_simp
    · have hne : q1 - q0 ≠ 0 := sub_ne_zero.mpr (ne_of_gt h01)
      rw [mul_div_assoc, div_self hne, mul_one]
      ring
    · have hne : q2 - q1 ≠ 0 := sub_ne_zero.mpr (ne_of_gt h12)
      rw [mul_div_assoc, div_self hne, mul_one]
      ring
    · have hne : q2 - q1 ≠ 0 := sub_ne_zero.mpr (ne_of_gt h12)
      rw [div_self hne, one_mul]
      ring
  unfold quantile_mapping
  rw [show quantile_map_value g g = id from funext hx]
  exact List.map_id g

/-- Witness for `quantile_mapping_self_identity` at `g = [1, 2, 4]`
(percentiles 6/5, 2, 18/5). -/
theorem quantile_mapping_self_identity_witness :
    np_quantile [(1 : ℚ), 2, 4] (1 / 10) < np_quantile [(1 : ℚ), 2, 4] (1 / 2) ∧
    np_quantile [(1 : ℚ), 2, 4] (1 / 2) < np_quantile [(1 : ℚ), 2, 4] (9 / 10) ∧
    np_quantile [(1 : ℚ), 2, 4] (1 / 10) ≠ 0 ∧
    quantile_mapping [(1 : ℚ), 2, 4] [(1 : ℚ), 2, 4] = [(1 : ℚ), 2, 4] := by
  have e0 : np_quantile [(1 : ℚ), 2, 4] (1 / 10) = 6 / 5 := by
    norm_num [np_quantile, sortQ, insertSorted, List.getD]
  have e1 : np_quantile [(1 : ℚ), 2, 4] (1 / 2) = 2 := by
    norm_num [np_quantile, sortQ, insertSorted, List.getD]
  have e2 : np_quantile [(1 : ℚ), 2, 4] (9 / 10) = 18 / 5 := by
    norm_num [np_quantile, sortQ, insertSorted, List.getD]
  refine ⟨by rw [e0, e1]; norm_num, by rw [e1, e2]; norm_num,
    by rw [e0]; norm_num, ?_⟩
  exact quantile_mapping_self_identity [1, 2, 4]
    (by rw [e0, e1]; norm_num) (by rw [e1, e2]; norm_num) (by rw [e0]; norm_num)

/-! ## Permutation test (`permutation_test` in
`src/ai_ml/validation/advanced_validation.py`)

The `n_permutations` draws of `np.random.permutation(ground)` are modelled
as an explicit list of shuffled copies; the returned dictionary's
`permuted_r2_mean`/`std` summaries are not consulted by any claim, so the
embedding returns `(real_r2, p_value)`. -/

def permutation_test (shuffles : List (List ℚ)) (ground tempo : List ℚ) :
    ℚ × ℚ :=
  let real_r2 := r2_score ground tempo
  let r2_permuted := shuffles.map (fun s => r2_score s tempo)
  (real_r2,
    ((r2_permuted.countP (fun r => real_r2 ≤ r) : ℚ)) / (shuffles.length : ℚ))

/-- C7: with `N ≥ 1` shuffled copies of the ground values, each resampled R²
is computed against the unshuffled satellite values, the p-value equals the
fraction of shuffled R² values that are ≥ the observed R², and it always
lies in `[0, 1]`.  (The `2 ≤ ground.length` hypothesis keeps every
`r2_score` call inside sklearn's well-defined domain.) -/
theorem permutation_test_p_value_bound (shuffles : List (List ℚ))
    (ground tempo : List ℚ) (hlen : 2 ≤ ground.length)
    (hperm : ∀ s ∈ shuffles, s.Perm ground) (hne : shuffles ≠ []) :
    (permutation_test shuffles ground tempo).2 =
      ((shuffles.countP
        (fun s => r2_score ground tempo ≤ r2_score s tempo) : ℚ)) /
        (shuffles.length : ℚ) ∧
    0 ≤ (permutation_test shuffles ground tempo).2 ∧
    (permutation_test shuffles ground tempo).2 ≤ 1 := by
  have hcount : ((shuffles.map (fun s => r2_score s tempo)).countP
      (fun r => r2_score ground tempo ≤ r)) =
      shuffles.countP (fun s => r2_score ground tempo ≤ r2_score s tempo) := by
    rw [List.countP_map]
    rfl
  have hnpos : 0 < (shuffles.length : ℚ) := by
    have : 0 < shuffles.length := List.length_pos.mpr hne
    exact_mod_cast this
  refine ⟨?_, ?_, ?_⟩
  · unfold permutation_test
    simp only [hcount]
  · unfold permutation_test
    simp only
    positivity
  · unfold permutation_test
    simp only [hcount]
    rw [div_le_one hnpos]
    have hle : shuffles.countP
        (fun s => r2_score ground tempo ≤ r2_score s tempo) ≤ shuffles.length :=
      List.countP_le_length _
    exact_mod_cast hle

/-- Witness for `permutation_test_p_value_bound` at a concrete input. -/
theorem permutation_test_p_value_bound_witness :
    (2 ≤ ([(1 : ℚ), 2]).length) ∧
    (∀ s ∈ [[(2 : ℚ), 1], [(1 : ℚ), 2]], s.Perm [(1 : ℚ), 2]) ∧
    (0 ≤ (permutation_test [[(2 : ℚ), 1], [(1 : ℚ), 2]] [(1 : ℚ), 2] [(0 : ℚ), 1]).2 ∧
      (permutation_test [[(2 : ℚ), 1], [(1 : ℚ), 2]] [(1 : ℚ), 2] [(0 : ℚ), 1]).2 ≤ 1) := by
  have hperm : ∀ s ∈ [[(2 : ℚ), 1], [(1 : ℚ), 2]], s.Perm [(1 : ℚ), 2] := by
    intro s hs
    rw [List.mem_cons, List.mem_cons] at hs
    rcases hs with h | h | h
    · rw [h]
      exact List.Perm.swap 1 2 []
    · rw [h]
    · exact absurd h (List.not_mem_nil s)
  have h := permutation_test_p_value_bound [[(2 : ℚ), 1], [(1 : ℚ), 2]]
    [(1 : ℚ), 2] [(0 : ℚ), 1] (by simp) hperm (by simp)
  exact ⟨by simp, hperm, h.2.1, h.2.2⟩

/-! ## Leave-one-city-out validation (`loco_validation` in
`src/ai_ml/validation/advanced_validation.py`)

One record per matched pair (`city`, `ground_value`, `tempo_value`); the
cities are visited in `Series.unique` first-appearance order.  `np.sqrt`
inside the two RMSEs is the parameter `sqrtFn` (ℚ has no square root); the
skip guard and the reported % improvement — the facts claimed — do not
depend on it, and the theorem below holds for every `sqrtFn` and every
optimiser `opt` passed down to `deming_regression`. -/

structure MatchedRec where
  city : String
  ground_value : ℚ
  tempo_value : ℚ
  deriving DecidableEq, Repr

structure LocoResult where
  n_train : ℕ
  n_test : ℕ
  r2_train : ℚ
  r2_test : ℚ
  rmse_raw : ℚ
  rmse_calibrated : ℚ
  rmse_improvement : ℚ
  mae_test : ℚ
  bias_test : ℚ
  calibration_slope : ℚ
  calibration_intercept : ℚ
  deriving DecidableEq, Repr

def loco_validation (opt : ((ℚ × ℚ) → ℚ) → (ℚ × ℚ) → ℚ × ℚ)
    (sqrtFn : ℚ → ℚ) (matched_data : List MatchedRec) :
    List (String × LocoResult) :=
  (uniqueStrings (matched_data.map MatchedRec.city)).filterMap (fun test_city =>
    let train_data := matched_data.filter (fun r => r.city ≠ test_city)
    let test_data := matched_data.filter (fun r => r.city = test_city)
    if train_data.length < 10 ∨ test_data.length < 5 then none
    else
      let d := deming_regression opt
        ((train_data.map MatchedRec.ground_value).map some)
        ((train_data.map MatchedRec.tempo_value).map some) none
      let test_ground := test_data.map MatchedRec.ground_value
      let test_tempo := test_data.map MatchedRec.tempo_value
      let test_cal := test_tempo.map (fun v => d.slope * v + d.intercept)
      let rmse_raw := sqrtFn (mean_squared_error test_ground test_tempo)
      let rmse_calibrated := sqrtFn (mean_squared_error test_ground test_cal)
      some (test_city,
        { n_train := train_data.length
          n_test := test_data.length
          r2_train := d.r2
          r2_test := r2_score test_ground test_cal
          rmse_raw := rmse_raw
          rmse_calibrated := rmse_calibrated
          rmse_improvement := (rmse_raw - rmse_calibrated) / rmse_raw * 100
          mae_test := mean_absolute_error test_ground test_cal
          bias_test := meanQ ((test_cal.zip test_ground).map (fun ab => ab.1 - ab.2))
          calibration_slope := d.slope
          calibration_intercept := d.intercept }))

/-- C8: a city whose training set (all other cities' pairs) has fewer than
10 pairs or whose held-out test set has fewer than 5 pairs contributes no
LOCO result (the guard is a skip, never an error — the embedding is total),
and every reported result satisfies both thresholds and reports
`% RMSE improvement = (rmse_raw − rmse_calibrated) / rmse_raw × 100`,
whatever the optimiser and square-root routine. -/
theorem loco_skip_and_improvement
    (opt : ((ℚ × ℚ) → ℚ) → (ℚ × ℚ) → ℚ × ℚ) (sqrtFn : ℚ → ℚ)
    (matched_data : List MatchedRec) :
    (∀ c : String,
      ((matched_data.filter (fun r => r.city ≠ c)).length < 10 ∨
        (matched_data.filter (fun r => r.city = c)).length < 5) →
      ∀ res : LocoResult, (c, res) ∉ loco_validation opt sqrtFn matched_data) ∧
    (∀ c : String, ∀ res : LocoResult,
      (c, res) ∈ loco_validation opt sqrtFn matched_data →
      10 ≤ res.n_train ∧ 5 ≤ res.n_test ∧
      res.rmse_improvement =
        (res.rmse_raw - res.rmse_calibrated) / res.rmse_raw * 100) := by
  constructor
  · intro c hc res hmem
    unfold loco_validation at hmem
    rw [List.mem_filterMap] at hmem
    obtain ⟨c2, -, heq⟩ := hmem
    by_cases hg : (matched_data.filter (fun r => r.city ≠ c2)).length < 10 ∨
        (matched_data.filter (fun r => r.city = c2)).length < 5
    · rw [if_pos hg] at heq
      exact absurd heq (by simp)
    · rw [if_neg hg] at heq
      injection heq with heq2
      have hcc : c2 = c := congrArg Prod.fst heq2
      rw [hcc] at hg
      exact hg hc
  · intro c res hmem
    unfold loco_validation at hmem
    rw [List.mem_filterMap] at hmem
    obtain ⟨c2, -, heq⟩ := hmem
    by_cases hg : (matched_data.filter (fun r => r.city ≠ c2)).length < 10 ∨
        (matched_data.filter (fun r => r.city = c2)).length < 5
    · rw [if_pos hg] at heq
      exact absurd heq (by simp)
    · rw [if_neg hg] at heq
      push_neg at hg
      injection heq with heq2
      rw [Prod.mk.injEq] at heq2
      obtain ⟨hc2, hres⟩ := heq2
      subst hres
      exact ⟨hg.1, hg.2, rfl⟩
/-! Concrete LOCO instance: ten pairs in city "A", five in city "B".
Testing on "A" leaves only 5 training pairs (skipped); testing on "B" has
10 training and 5 test pairs (evaluated). -/

def recA : MatchedRec := ⟨"A", 0, 1⟩

def recB1 : MatchedRec := ⟨"B", 1, 2⟩

def recB2 : MatchedRec := ⟨"B", 2, 3⟩

def recB3 : MatchedRec := ⟨"B", 3, 4⟩

def recB4 : MatchedRec := ⟨"B", 4, 5⟩

def recB5 : MatchedRec := ⟨"B", 5, 6⟩

def dataW : List MatchedRec :=
  [recA, recA, recA, recA, recA, recA, recA, recA, recA, recA,
    recB1, recB2, recB3, recB4, recB5]

def resA : LocoResult := ⟨0, 0, 0, 0, 0, 0, 0, 0, 0, 0, 0⟩

def resB : LocoResult := ⟨10, 5, 0, 1 / 2, 1, 1, 0, 1, 1, 1, 0⟩

/-- Witness for `loco_skip_and_improvement` at a concrete input: city "A"
is skipped (5 training pairs), city "B" is evaluated and its reported
improvement obeys the formula. -/
theorem loco_skip_and_improvement_witness :
    ((dataW.filter (fun r => r.city ≠ "A")).length < 10 ∨
      (dataW.filter (fun r => r.city = "A")).length < 5) ∧
    (("A", resA) ∉ loco_validation idOpt id dataW) ∧
    ("B", resB) ∈ loco_validation idOpt id dataW ∧
    resB.rmse_improvement =
      (resB.rmse_raw - resB.rmse_calibrated) / resB.rmse_raw * 100 := by
  have hBA : ("B" : String) ≠ "A" := by decide
  have hAB : ("A" : String) ≠ "B" := by decide
  have hguard : (dataW.filter (fun r => r.city ≠ "A")).length < 10 ∨
      (dataW.filter (fun r => r.city = "A")).length < 5 := by
    left
    norm_num [dataW, recA, recB1, recB2, recB3, recB4, recB5, hBA,
      List.filter_cons, List.filter_nil]
  have heval : loco_validation idOpt id dataW = [("B", resB)] := by
    norm_num [loco_validation, uniqueStrings, uniqueAux, deming_regression,
      degenerateInput, np_var_lt, allFinite, finiteVals, np_var, meanQ,
      cleanPairs, np_polyfit, r2_score, mean_squared_error,
      mean_absolute_error, idOpt, dataW, recA, recB1, recB2, recB3, recB4,
      recB5, resB, hBA, hAB, List.filter_cons, List.filter_nil,
      List.filterMap_cons, List.filterMap_nil, List.getD]
  have hmem : ("B", resB) ∈ loco_validation idOpt id dataW := by
    rw [heval]
    exact List.mem_singleton_self _
  exact ⟨hguard, (loco_skip_and_improvement idOpt id dataW).1 "A" hguard resA,
    hmem, ((loco_skip_and_improvement idOpt id dataW).2 "B" resB hmem).2.2⟩

end NasaSpaceApps
